import Mathlib

/-!
Shallow embedding of `cambanzo.py` (andypayne/cambanzo): a camera-capture /
object-detection / archival / display cycle orchestrator.

Modelling conventions:
* The file system is an association list from absolute path to file content.
  Directories are implicit (`os.makedirs` always succeeds and is not tracked).
* Clock values are passed explicitly as epoch milliseconds (`Nat`); Python's
  `timestamp_str` computes `str(int(1000 * time.time()))`, modelled as the
  decimal string of the millisecond clock.
* `os.path.join a b` (with `a` absolute, not slash-terminated, `b` relative)
  is modelled as `a ++ "/" ++ b`; `os.path.basename` as the part after the
  last slash.
* External effects (HTTP GET status/body, detection-tool exit statuses) are
  inputs of the model; child-process launches are recorded in a spawn trace.
* Fallible operations (`shutil.move` of a missing source, `subprocess` with
  `check=True`) return `Except`.
-/

deriving instance DecidableEq for Except

namespace Cambanzo

/-- File system: association list mapping a path to the file's content.
`fsInsert` keeps keys unique, so earlier entries are authoritative. -/
abbrev FS := List (String × String)

/-- Content stored at path `p`, if a file exists there. -/
def fsLookup (fs : FS) (p : String) : Option String :=
  (fs.find? (fun e => e.1 = p)).map (fun e => e.2)

/-- Remove the file at path `p` (no-op when absent). -/
def fsErase (p : String) (fs : FS) : FS :=
  fs.filter (fun e => e.1 ≠ p)

/-- Create or overwrite the file at path `p` with content `c`. -/
def fsInsert (p c : String) (fs : FS) : FS :=
  (p, c) :: fsErase p fs

/-- `os.path.basename`: the component after the last `/` (empty when the
path ends in a slash). Written as a left fold over the characters so that it
evaluates by kernel reduction. -/
def basename (p : String) : String :=
  ⟨p.data.foldl (fun acc c => if c = '/' then [] else acc ++ [c]) []⟩

/-- `timestamp_str`: Python returns `str(int(1000 * time.time()))`; the clock
is supplied as epoch milliseconds, so this is its decimal string. -/
def timestamp_str (tsMs : Nat) : String := toString tsMs

/-- One iteration of the loop body of `move_files`:
`shutil.move(mfile, os.path.join(to_dir, os.path.basename(mfile)))`.
Moving a missing source raises (`FileNotFoundError`), modelled as `.error`. -/
def move_file (fs : FS) (to_dir mfile : String) : Except String FS :=
  match fsLookup fs mfile with
  | none => .error mfile
  | some c => .ok (fsInsert (to_dir ++ "/" ++ basename mfile) c (fsErase mfile fs))

/-- `move_files(files, to_dir)`: move each file, in list order, into `to_dir`
under its base name (`os.makedirs(to_dir, exist_ok=True)` is implicit). -/
def move_files (files : List String) (to_dir : String) (fs : FS) :
    Except String FS :=
  match files with
  | [] => .ok fs
  | f :: rest => do
    let fs' ← move_file fs to_dir f
    move_files rest to_dir fs'

/-- `archive_files(files, to_base)`: create `to_base/<timestamp>` and move the
files there; returns the created directory (and the updated file system). -/
def archive_files (files : List String) (to_base : String) (nowMs : Nat)
    (fs : FS) : Except String (String × FS) := do
  let ts_dir := to_base ++ "/" ++ timestamp_str nowMs
  let fs' ← move_files files ts_dir fs
  .ok (ts_dir, fs')

/-- `download_image(url, user, pwd, name)`: the GET's response is an input
(status and body). A non-200 status returns `-1` and writes nothing; a 200
status writes the body to `name` and returns `0`. -/
def download_image (status : Nat) (content : String) (name : String)
    (fs : FS) : Int × FS :=
  if status ≠ 200 then (-1, fs)
  else (0, fsInsert name content fs)

/-- Python `f"{i:02}"`: decimal, zero-padded to at least two digits. -/
def pad2 (i : Nat) : String :=
  if i < 10 then "0" ++ toString i else toString i

/-- The `chdir` context manager's fields: `__init__(newPath)` expands the user
path (identity here) and initially sets `savedPath = newPath`. -/
structure ChdirCtx where
  newPath : String
  savedPath : String
deriving DecidableEq

/-- `chdir.__init__`. -/
def chdir_init (p : String) : ChdirCtx := { newPath := p, savedPath := p }

/-- `chdir.__enter__`: record `os.getcwd()` into `savedPath`, then
`os.chdir(self.newPath)`. Returns the updated object and the new cwd. -/
def chdir_enter (c : ChdirCtx) (cwd : String) : ChdirCtx × String :=
  ({ c with savedPath := cwd }, c.newPath)

/-- `chdir.__exit__`: `os.chdir(self.savedPath)`, on every exit path. -/
def chdir_exit (c : ChdirCtx) : String := c.savedPath

/-- A `with chdir(p): body` block. The body receives the cwd set by
`__enter__` and yields a result and the cwd it left behind; Python runs
`__exit__` both on normal completion and on an exception (which the context
manager does not suppress), so the result is paired with the restored cwd. -/
def withChdir (p : String) (body : String → Except String α × String)
    (cwd : String) : Except String α × String :=
  let c := chdir_init p
  let (c', cwd1) := chdir_enter c cwd
  let (r, _cwd2) := body cwd1
  (r, chdir_exit c')

/-- The `[Darknet]` section of the configuration. -/
structure DarknetCfg where
  path : String
  cmdTmpl : String
  yoloCfg : String
  yoloWeights : String
  outImgPre : String
  dataCfg : String
deriving DecidableEq

/-- A child-process launch: `tmpl.format(args...)` executed through the shell.
Python's `str.format` substitution is not modelled; the template and its
argument list identify the command, which is all the claims consult. -/
structure DarknetCmd where
  tmpl : String
  args : List String
deriving DecidableEq

/-- Result of `run_obj_dets`: the detection/output lists on success,
the spawn trace of child-process launches, and the final cwd. The regex
parse of the tool's stdout into `(label, percent)` pairs is an input-dependent
transcription of external output and is not consulted by any claim; the
output-path list is the modelled payload. -/
structure ObjDetsResult where
  res : Except String (List String)
  spawns : List DarknetCmd
  cwd : String
deriving DecidableEq

/-- `run_obj_dets(img_paths, verbose)`. Inside `with chdir(Darknet.Path)`:
build `out_img_path`, format one `darknet_cmd` over the whole batch, run it
via `subprocess.check_output` and then again via `subprocess.run` (both with
`shell=True`; nonzero exit raises, modelled by the input flags `exit1`/`exit2`
being `false`), then synthesize one output path per input image:
`Path + '/' + out_img_path + '__' + f'{i:02}' + '.jpg'`. -/
def run_obj_dets (cfg : DarknetCfg) (nowMs : Nat) (exit1 exit2 : Bool)
    (img_paths : List String) (cwd : String) : ObjDetsResult :=
  let img_path_basename := "obj_det_out_" ++ timestamp_str nowMs ++ "_"
  let out_img_path := cfg.outImgPre ++ "_" ++ img_path_basename
  let darknet_cmd : DarknetCmd :=
    { tmpl := cfg.cmdTmpl
      args := [cfg.yoloCfg, cfg.yoloWeights, out_img_path, cfg.dataCfg,
               String.intercalate " " img_paths] }
  let body : String → Except String (List String) × String := fun innerCwd =>
    if !exit1 then (.error "CalledProcessError", innerCwd)
    else if !exit2 then (.error "CalledProcessError", innerCwd)
    else
      let out_img_paths := (List.range img_paths.length).map (fun i =>
        cfg.path ++ "/" ++ out_img_path ++ "__" ++ pad2 i ++ ".jpg")
      (.ok out_img_paths, innerCwd)
  let (r, cwd') := withChdir cfg.path body cwd
  let spawns := if !exit1 then [darknet_cmd] else [darknet_cmd, darknet_cmd]
  { res := r, spawns := spawns, cwd := cwd' }

/-- `math.ceil(math.sqrt n)`: the least `k` with `n ≤ k * k` (IEEE rounding
of `math.sqrt` is abstracted away — exact for the batch sizes in scope).
Written as a bounded search so that it evaluates by kernel reduction;
`k = n` always satisfies `n ≤ n * n`, so the default is never taken for the
values of interest. -/
def ceilSqrt (n : Nat) : Nat :=
  (((List.range (n + 1)).find? (fun k => n ≤ k * k)).getD n)

/-- The quantities `show_images` computes before placing images.
`winW`/`winH` are 1920/1080 as in `ImageDisplay.__init__`. -/
structure Layout where
  numRowsCols : Nat
  imgW : Nat
  imgH : Nat
  numCols : Nat
  numRows : Nat
deriving DecidableEq

/-- The layout computation of `ImageDisplay.show_images` for `n` images whose
first image has original size `w × h` (`win_width = 1920`,
`win_height = 1080` from `ImageDisplay.__init__`). Python's `int()` on a
nonnegative float truncates; with binary-float rounding abstracted to exact
arithmetic, `int(a / b)` is `a / b` in natural division and
`int((img_w / orig_w) * orig_h)` is `img_w * orig_h / orig_w`. The branch
condition is the code's strict `orig_w > orig_h`. -/
def show_images_layout (n w h : Nat) : Layout :=
  let num_rows_cols := ceilSqrt n
  if w > h then
    let img_w := 1920 / num_rows_cols
    let img_h := img_w * h / w
    { numRowsCols := num_rows_cols, imgW := img_w, imgH := img_h
      numCols := 1920 / img_w, numRows := 1080 / img_h }
  else
    let img_h := 1080 / num_rows_cols
    let img_w := img_h * w / h
    { numRowsCols := num_rows_cols, imgW := img_w, imgH := img_h
      numCols := 1920 / img_w, numRows := 1080 / img_h }

/-- Observable state of `ImageDisplay` for the keypress handler: whether a
refresh callback is registered (`on_refresh` sets it), whether
`self.root.destroy()` has run, whether `sys.exit(0)` was reached, and how
often the refresh callback has been invoked. -/
structure KeyState where
  hasRefreshCb : Bool
  destroyed : Bool
  exited : Bool
  cbInvocations : Nat
deriving DecidableEq

/-- The space character (code point 32), the refresh key. -/
def spaceChar : Char := Char.ofNat 32

/-- `ImageDisplay.on_keypress(e)` for a key with character `c`:
`'q'` destroys the root and exits the process; the space key invokes the
refresh callback when one is registered and then destroys the root (the
destroy is unconditional); any other key does nothing. -/
def on_keypress (st : KeyState) (c : Char) : KeyState :=
  if c = 'q' then { st with destroyed := true, exited := true }
  else if c = spaceChar then
    let st' := if st.hasRefreshCb
      then { st with cbInvocations := st.cbInvocations + 1 } else st
    { st' with destroyed := true }
  else st

/-- The inputs of one `run_cycle` call: configuration truthiness of the three
`Enabled` flags, the images the Foggycam directory scan yields, the Amcrest
GET's response, the (absolute) `OutDir`, the Darknet configuration and tool
exit statuses, and the clock. -/
structure CycleEnv where
  foggycamEnabled : Bool
  amcrestEnabled : Bool
  darknetEnabled : Bool
  foggycamImgs : List String
  amcrestStatus : Nat
  amcrestContent : String
  outDir : String
  darknet : DarknetCfg
  exit1 : Bool
  exit2 : Bool
  nowMs : Nat
deriving DecidableEq

/-- The observable outcome of `run_cycle`: the image paths returned to the
caller (shown by the renderer), the file system, the batch handed to
`run_obj_dets` (when detection ran), and the child-process spawn trace. -/
structure CycleResult where
  shown : List String
  fs : FS
  detBatch : Option (List String)
  spawns : List DarknetCmd
deriving DecidableEq

/-- The acquisition half of `run_cycle` (lines building `img_paths`): the
Foggycam scan results when that source is enabled, then — when Amcrest is
enabled — `download_image` followed by an unconditional
`img_paths.append(img_filename)` (the code ignores the returned status). -/
def acquire (env : CycleEnv) (fs : FS) : List String × FS :=
  let img_paths := if env.foggycamEnabled then env.foggycamImgs else []
  if env.amcrestEnabled then
    let img_filename :=
      env.outDir ++ "/" ++ ("amcr_" ++ timestamp_str env.nowMs ++ ".jpg")
    let (_, fs') := download_image env.amcrestStatus env.amcrestContent
      img_filename fs
    (img_paths ++ [img_filename], fs')
  else (img_paths, fs)

/-- `run_cycle()`: acquire, then — when Darknet is enabled — detect over
`img_paths[:9]`, archive `img_paths` and the detection outputs, relocate the
output paths into the second archive directory and return the first 9; when
Darknet is disabled, return `img_paths[:9]` directly (no archiving). -/
def run_cycle (env : CycleEnv) (fs : FS) (cwd : String) :
    Except String CycleResult × String :=
  let (img_paths, fs) := acquire env fs
  let max_num_imgs := 9
  if env.darknetEnabled then
    let r := run_obj_dets env.darknet env.nowMs env.exit1 env.exit2
      (img_paths.take max_num_imgs) cwd
    match r.res with
    | .error e => (.error e, r.cwd)
    | .ok obj_det_imgs =>
      match archive_files img_paths env.outDir env.nowMs fs with
      | .error e => (.error e, r.cwd)
      | .ok (_, fs1) =>
        match archive_files obj_det_imgs env.outDir env.nowMs fs1 with
        | .error e => (.error e, r.cwd)
        | .ok (arch_dir, fs2) =>
          let relocated := obj_det_imgs.map (fun p =>
            arch_dir ++ "/" ++ basename p)
          (.ok { shown := relocated.take max_num_imgs, fs := fs2
                 detBatch := some (img_paths.take max_num_imgs)
                 spawns := r.spawns }, r.cwd)
  else
    (.ok { shown := img_paths.take max_num_imgs, fs := fs
           detBatch := none, spawns := [] }, cwd)

/-! ### File-system lemmas -/

/-- Target path of a move into `toDir`. -/
def tgt (toDir f : String) : String := toDir ++ "/" ++ basename f

theorem fsLookup_cons (e : String × String) (fs : FS) (p : String) :
    fsLookup (e :: fs) p = if e.1 = p then some e.2 else fsLookup fs p := by
  by_cases h : e.1 = p
  · rw [fsLookup, List.find?_cons_of_pos _ (by simp [h])]
    simp [h]
  · rw [fsLookup, List.find?_cons_of_neg _ (by simp [h]), if_neg h]
    rfl

theorem fsLookup_erase (fs : FS) (p q : String) :
    fsLookup (fsErase q fs) p = if p = q then none else fsLookup fs p := by
  induction fs with
  | nil => simp [fsErase, fsLookup]
  | cons e fs ih =>
    by_cases heq : e.1 = q
    · have hdrop : fsErase q (e :: fs) = fsErase q fs := by
        simp [fsErase, List.filter_cons, heq]
      rw [hdrop, ih, fsLookup_cons]
      by_cases hpq : p = q
      · simp [hpq]
      · have hne : ¬e.1 = p := fun h => hpq (h.symm.trans heq)
        simp [hpq, hne]
    · have hkeep : fsErase q (e :: fs) = e :: fsErase q fs := by
        simp [fsErase, List.filter_cons, heq]
      rw [hkeep, fsLookup_cons, ih]
      by_cases hep : e.1 = p
      · have hpq : ¬p = q := fun h => heq (hep.trans h)
        simp [fsLookup_cons, hep, hpq]
      · simp [fsLookup_cons, hep]

theorem fsLookup_insert (fs : FS) (p q c : String) :
    fsLookup (fsInsert q c fs) p = if p = q then some c else fsLookup fs p := by
  rw [fsInsert, fsLookup_cons, fsLookup_erase]
  by_cases hpq : p = q
  · simp [hpq]
  · have hqp : ¬q = p := fun h => hpq h.symm
    simp [hpq, hqp]

/-- Full characterization of `move_files` under the hypotheses that the
files are pairwise distinct, all present, none of them equal to a move
target, and that distinct files have distinct targets: the run succeeds,
every file's content reappears at its target, every source disappears, and
every other path is untouched. -/
theorem move_files_spec (toDir : String) :
    ∀ (files : List String) (fs : FS),
    files.Nodup →
    (∀ f ∈ files, (fsLookup fs f).isSome) →
    (∀ f ∈ files, ∀ g ∈ files, f ≠ tgt toDir g) →
    (∀ f ∈ files, ∀ g ∈ files, tgt toDir f = tgt toDir g → f = g) →
    ∃ fs', move_files files toDir fs = .ok fs' ∧
      (∀ f ∈ files, fsLookup fs' (tgt toDir f) = fsLookup fs f) ∧
      (∀ f ∈ files, fsLookup fs' f = none) ∧
      (∀ p, p ∉ files → (∀ f ∈ files, p ≠ tgt toDir f) →
        fsLookup fs' p = fsLookup fs p) := by
  intro files
  induction files with
  | nil =>
    intro fs _ _ _ _
    exact ⟨fs, rfl, by simp, by simp, fun p _ _ => rfl⟩
  | cons g rest ih =>
    intro fs hnd hex hdisj hinj
    have hgmem : g ∈ g :: rest := List.mem_cons_self g rest
    have hgnotrest : g ∉ rest := (List.nodup_cons.mp hnd).1
    have hndrest : rest.Nodup := (List.nodup_cons.mp hnd).2
    obtain ⟨c, hc⟩ := Option.isSome_iff_exists.mp (hex g hgmem)
    have hstep : move_file fs toDir g =
        .ok (fsInsert (tgt toDir g) c (fsErase g fs)) := by
      simp [move_file, hc, tgt]
    set fs1 : FS := fsInsert (tgt toDir g) c (fsErase g fs) with hfs1
    -- lookups in `fs1` for the remaining sources agree with `fs`
    have hkeep : ∀ h ∈ rest, fsLookup fs1 h = fsLookup fs h := by
      intro h hh
      have h1 : h ≠ tgt toDir g :=
        hdisj h (List.mem_cons_of_mem g hh) g hgmem
      have h2 : h ≠ g := fun he => hgnotrest (he ▸ hh)
      rw [hfs1, fsLookup_insert, if_neg h1, fsLookup_erase, if_neg h2]
    have hex1 : ∀ h ∈ rest, (fsLookup fs1 h).isSome := by
      intro h hh; rw [hkeep h hh]; exact hex h (List.mem_cons_of_mem g hh)
    have hdisj1 : ∀ f ∈ rest, ∀ g' ∈ rest, f ≠ tgt toDir g' := fun f hf g' hg' =>
      hdisj f (List.mem_cons_of_mem g hf) g' (List.mem_cons_of_mem g hg')
    have hinj1 : ∀ f ∈ rest, ∀ g' ∈ rest, tgt toDir f = tgt toDir g' → f = g' :=
      fun f hf g' hg' => hinj f (List.mem_cons_of_mem g hf)
        g' (List.mem_cons_of_mem g hg')
    obtain ⟨fs', hrun, hG1, hG2, hG3⟩ := ih fs1 hndrest hex1 hdisj1 hinj1
    refine ⟨fs', ?_, ?_, ?_, ?_⟩
    · simp only [move_files, hstep, Except.bind]
      exact hrun
    · -- every file's content reappears at its target
      intro f hf
      rcases List.mem_cons.mp hf with hfg | hfr
      · subst hfg
        have hnotin : tgt toDir f ∉ rest := by
          intro hmem
          exact hdisj (tgt toDir f) (List.mem_cons_of_mem f hmem) f hgmem rfl
        have hnottgt : ∀ h ∈ rest, tgt toDir f ≠ tgt toDir h := by
          intro h hh he
          exact hgnotrest ((hinj f hgmem h (List.mem_cons_of_mem f hh) he) ▸ hh)
        rw [hG3 (tgt toDir f) hnotin hnottgt, hfs1, fsLookup_insert, if_pos rfl,
          hc]
      · rw [hG1 f hfr, hkeep f hfr]
    · -- every source disappears
      intro f hf
      rcases List.mem_cons.mp hf with hfg | hfr
      · subst hfg
        have hnottgt : ∀ h ∈ rest, f ≠ tgt toDir h := fun h hh =>
          hdisj f hgmem h (List.mem_cons_of_mem f hh)
        have hfnottgtf : f ≠ tgt toDir f := hdisj f hgmem f hgmem
        rw [hG3 f hgnotrest hnottgt, hfs1, fsLookup_insert, if_neg hfnottgtf,
          fsLookup_erase, if_pos rfl]
      · exact hG2 f hfr
    · -- frame: all other paths untouched
      intro p hp hptgt
      have hpg : p ≠ g := fun he => hp (he ▸ hgmem)
      have hprest : p ∉ rest := fun hm => hp (List.mem_cons_of_mem g hm)
      have hptgtg : p ≠ tgt toDir g := hptgt g hgmem
      rw [hG3 p hprest (fun f hf => hptgt f (List.mem_cons_of_mem g hf)),
        hfs1, fsLookup_insert, if_neg hptgtg, fsLookup_erase, if_neg hpg]

/-! ### Concrete sample inputs used by witnesses and counterexamples -/

/-- A sample `[Darknet]` configuration. -/
def sampleCfg : DarknetCfg :=
  ⟨"/dk", "TMPL", "yolo.cfg", "yolo.weights", "pre", "data.cfg"⟩

/-- A cycle whose only enabled source is an Amcrest snapshot whose GET
returns status 500; detection disabled. -/
def envAmcrest500 : CycleEnv :=
  ⟨false, true, false, [], 500, "body", "/out", sampleCfg, true, true, 7⟩

/-- A cycle with three pre-existing Foggycam images and detection disabled. -/
def envThreeImgs : CycleEnv :=
  ⟨true, false, false, ["/cap/a.jpg", "/cap/b.jpg", "/cap/c.jpg"], 200, "",
   "/out", sampleCfg, true, true, 7⟩

/-- The file system holding the three pre-existing images. -/
def fsThreeImgs : FS :=
  [("/cap/a.jpg", "1"), ("/cap/b.jpg", "2"), ("/cap/c.jpg", "3")]

/-- A cycle with detection enabled and no acquisition sources. -/
def envDetOnly : CycleEnv :=
  ⟨false, false, true, [], 200, "", "/out", sampleCfg, true, true, 7⟩

/-- The single batch command `envDetOnly` produces. -/
def cmdDetOnly : DarknetCmd :=
  ⟨"TMPL", ["yolo.cfg", "yolo.weights", "pre_obj_det_out_7_", "data.cfg", ""]⟩

/-- A two-file file system for the archival witness. -/
def fsTwoFiles : FS := [("/cap/a.jpg", "one"), ("/cap/b.jpg", "two")]

/-! ### Claim theorems -/

/-- C3: for every non-empty input batch (with both tool invocations exiting
successfully), `run_obj_dets` returns exactly N output image paths, in input
order: the i-th is the darknet install path, the run's base output path, a
double underscore, the two-digit zero-padded index i, and the `.jpg`
extension, for i = 0..N-1. -/
theorem c3_one_output_path_per_input (cfg : DarknetCfg) (nowMs : Nat)
    (img_paths : List String) (cwd : String) (hne : 1 ≤ img_paths.length) :
    ∃ outs, (run_obj_dets cfg nowMs true true img_paths cwd).res = .ok outs ∧
      outs.length = img_paths.length ∧
      outs = (List.range img_paths.length).map (fun i =>
        cfg.path ++ "/" ++ (cfg.outImgPre ++ "_" ++
          ("obj_det_out_" ++ timestamp_str nowMs ++ "_")) ++ "__" ++
          pad2 i ++ ".jpg") := by
  refine ⟨_, rfl, ?_, rfl⟩
  simp

/-- Witness for C3 at a concrete two-image batch. -/
theorem c3_one_output_path_per_input_witness :
    ∃ outs, (run_obj_dets sampleCfg 7 true true ["/img/a.jpg", "/img/b.jpg"]
        "/wd").res = .ok outs ∧
      outs.length = (["/img/a.jpg", "/img/b.jpg"] : List String).length ∧
      outs = (List.range
          (["/img/a.jpg", "/img/b.jpg"] : List String).length).map (fun i =>
        sampleCfg.path ++ "/" ++ (sampleCfg.outImgPre ++ "_" ++
          ("obj_det_out_" ++ timestamp_str 7 ++ "_")) ++ "__" ++
          pad2 i ++ ".jpg") :=
  c3_one_output_path_per_input sampleCfg 7 ["/img/a.jpg", "/img/b.jpg"] "/wd"
    (by decide)

/-- C4 counterexample: at a concrete singleton batch whose tool invocations
succeed, the external detection tool is launched twice, not exactly once. -/
theorem c4_counterexample :
    (run_obj_dets sampleCfg 7 true true ["/img/a.jpg"] "/wd").spawns.length
        = 2 ∧
    ¬(run_obj_dets sampleCfg 7 true true ["/img/a.jpg"] "/wd").spawns.length
        = 1 := by
  decide

/-- C4 (amended): `run_obj_dets` builds a single command covering the whole
batch — its final argument is the space-joined list of all input paths — but
launches the external tool twice with that identical command (once via
`check_output`, once via `run`) whenever the first launch succeeds; it never
launches the tool once per image. -/
theorem c4_whole_batch_command_launched_twice (cfg : DarknetCfg) (nowMs : Nat)
    (exit2 : Bool) (img_paths : List String) (cwd : String) :
    ∃ c : DarknetCmd,
      (run_obj_dets cfg nowMs true exit2 img_paths cwd).spawns = [c, c] ∧
      c.args.getLast? = some (String.intercalate " " img_paths) :=
  ⟨_, rfl, rfl⟩

/-- C5 counterexample: for N = 4 with a square 100 × 100 reference image the
code takes the height branch (its condition is the strict `orig_w > orig_h`),
producing a 540 × 540 tile and a recomputed grid of 3 columns × 2 rows on the
1920 × 1080 canvas — not the claimed displayed width 1920 / 2 = 960 and not a
2 × 2 grid. -/
theorem c5_counterexample :
    show_images_layout 4 100 100 = ⟨2, 540, 540, 3, 2⟩ ∧
    ¬((show_images_layout 4 100 100).imgW = 960 ∧
      (show_images_layout 4 100 100).numCols = 2 ∧
      (show_images_layout 4 100 100).numRows = 2) := by
  decide

/-- C5 (amended): the layout computes G = ceil(sqrt(N)); when w > h
(strictly) the displayed width is ⌊canvasWidth / G⌋ with the height scaled
proportionally, otherwise — including square references — the displayed
height is ⌊canvasHeight / G⌋ with the width scaled proportionally; the grid
actually used is recomputed per axis as ⌊canvas / displayed⌋, so for N = 4
with a square reference the grid (columns × rows) is 3 × 2 and for N = 9 it
is 5 × 3. -/
theorem c5_grid_layout (n w h : Nat) :
    (show_images_layout n w h).numRowsCols = ceilSqrt n ∧
    (w > h → (show_images_layout n w h).imgW = 1920 / ceilSqrt n ∧
      (show_images_layout n w h).imgH =
        (show_images_layout n w h).imgW * h / w) ∧
    (¬w > h → (show_images_layout n w h).imgH = 1080 / ceilSqrt n ∧
      (show_images_layout n w h).imgW =
        (show_images_layout n w h).imgH * w / h) ∧
    (show_images_layout n w h).numCols =
      1920 / (show_images_layout n w h).imgW ∧
    (show_images_layout n w h).numRows =
      1080 / (show_images_layout n w h).imgH ∧
    show_images_layout 4 100 100 = ⟨2, 540, 540, 3, 2⟩ ∧
    show_images_layout 9 100 100 = ⟨3, 360, 360, 5, 3⟩ := by
  refine ⟨?_, ?_, ?_, ?_, ?_, by decide, by decide⟩ <;>
    by_cases hwh : w > h <;>
    simp [show_images_layout, hwh]

/-- C7 counterexample: a space (refresh) key event with no refresh callback
registered is not a no-op — the display is still torn down
(`self.root.destroy()` runs unconditionally) and the state changes. -/
theorem c7_counterexample :
    (on_keypress ⟨false, false, false, 0⟩ spaceChar).destroyed = true ∧
    on_keypress ⟨false, false, false, 0⟩ spaceChar
      ≠ (⟨false, false, false, 0⟩ : KeyState) := by
  decide

/-- C7 (amended): on a refresh (space) key event the display is always torn
down, whether or not a callback is registered; the refresh callback is
invoked exactly when one is registered, before the teardown. -/
theorem c7_refresh_always_tears_down (st : KeyState) :
    (on_keypress st spaceChar).destroyed = true ∧
    (on_keypress st spaceChar).cbInvocations =
      st.cbInvocations + (if st.hasRefreshCb then 1 else 0) ∧
    (on_keypress st spaceChar).hasRefreshCb = st.hasRefreshCb ∧
    (on_keypress st spaceChar).exited = st.exited := by
  have hq : ¬spaceChar = 'q' := by decide
  cases hcb : st.hasRefreshCb <;> simp [on_keypress, hq, hcb]

/-- C8: `run_obj_dets` restores the process working directory on every exit
path: whatever the two tool invocations' exit statuses (including the failure
paths, where the raised error propagates through the context manager's
`__exit__`), the cwd after the call equals the cwd before it. -/
theorem c8_cwd_restored (cfg : DarknetCfg) (nowMs : Nat) (exit1 exit2 : Bool)
    (img_paths : List String) (cwd : String) :
    (run_obj_dets cfg nowMs exit1 exit2 img_paths cwd).cwd = cwd := rfl

/-- C1 (code-bug evaluation): at a cycle whose only source is an Amcrest
snapshot whose GET returns status 500, `download_image` returns `-1` and
creates no file (the file system is unchanged), yet `run_cycle` still appends
the snapshot's output path to the acquired-image list: the cycle returns one
path — to a file that was never written — instead of zero. -/
theorem c1_non200_creates_no_file_but_appends_path :
    (download_image 500 "body" "/out/amcr_7.jpg" []).1 = -1 ∧
    (download_image 500 "body" "/out/amcr_7.jpg" []).2 = ([] : FS) ∧
    run_cycle envAmcrest500 [] "/wd"
      = (.ok ⟨["/out/amcr_7.jpg"], [], none, []⟩, "/wd") := by
  decide

/-- C2 counterexample: a cycle with 3 pre-existing images and detection
disabled returns the three raw acquired paths with the file system untouched
— no timestamped archive directory is created, no file is moved, and none of
the returned paths is the relocated counterpart the claim requires. -/
theorem c2_counterexample :
    run_cycle envThreeImgs fsThreeImgs "/wd"
      = (.ok ⟨["/cap/a.jpg", "/cap/b.jpg", "/cap/c.jpg"], fsThreeImgs,
              none, []⟩, "/wd") ∧
    (∀ p ∈ ["/cap/a.jpg", "/cap/b.jpg", "/cap/c.jpg"],
      p ≠ "/out" ++ "/" ++ timestamp_str envThreeImgs.nowMs ++ "/" ++
        basename p) := by
  decide

/-- C2 (amended): with detection disabled by configuration, `run_cycle`
skips the detection stage AND the archival stage: it returns the first 9
acquired image paths unchanged (for 3 pre-existing acquired images, exactly
those 3 raw paths) and leaves the file system untouched; no timestamped
directory is created and no file is moved. -/
theorem c2_detection_disabled_skips_archiving (env : CycleEnv) (fs : FS)
    (cwd : String) (hd : env.darknetEnabled = false) :
    run_cycle env fs cwd =
      (.ok { shown := (acquire env fs).1.take 9, fs := (acquire env fs).2,
             detBatch := none, spawns := [] }, cwd) := by
  rcases hacq : acquire env fs with ⟨imgs, fs'⟩
  simp [run_cycle, hacq, hd]

/-- Witness for the amended C2 at the 3-image cycle. -/
theorem c2_detection_disabled_skips_archiving_witness :
    run_cycle envThreeImgs fsThreeImgs "/wd" =
      (.ok { shown := (acquire envThreeImgs fsThreeImgs).1.take 9,
             fs := (acquire envThreeImgs fsThreeImgs).2,
             detBatch := none, spawns := [] }, "/wd") :=
  c2_detection_disabled_skips_archiving envThreeImgs fsThreeImgs "/wd"
    (by decide)

/-- C6: for every non-empty list of pairwise-distinct files, all present,
none located at a move target, with pairwise-distinct targets,
`archive_files(F, B)` succeeds and returns the directory `B/<t>` with `<t>`
the decimal millisecond timestamp; afterwards each file's content sits in
that directory under the file's base name, the original locations hold
nothing, and every other path is untouched — the files are moved, not
copied. -/
theorem c6_archive_moves_files (files : List String) (to_base : String)
    (nowMs : Nat) (fs : FS)
    (hne : files ≠ [])
    (hnd : files.Nodup)
    (hex : ∀ f ∈ files, (fsLookup fs f).isSome)
    (hdisj : ∀ f ∈ files, ∀ g ∈ files,
      f ≠ tgt (to_base ++ "/" ++ timestamp_str nowMs) g)
    (hinj : ∀ f ∈ files, ∀ g ∈ files,
      tgt (to_base ++ "/" ++ timestamp_str nowMs) f =
        tgt (to_base ++ "/" ++ timestamp_str nowMs) g → f = g) :
    ∃ fs',
      archive_files files to_base nowMs fs =
        .ok (to_base ++ "/" ++ timestamp_str nowMs, fs') ∧
      (∀ f ∈ files,
        fsLookup fs' (tgt (to_base ++ "/" ++ timestamp_str nowMs) f) =
          fsLookup fs f) ∧
      (∀ f ∈ files, fsLookup fs' f = none) ∧
      (∀ p, p ∉ files →
        (∀ f ∈ files, p ≠ tgt (to_base ++ "/" ++ timestamp_str nowMs) f) →
        fsLookup fs' p = fsLookup fs p) := by
  obtain ⟨fs', hrun, h1, h2, h3⟩ :=
    move_files_spec (to_base ++ "/" ++ timestamp_str nowMs) files fs
      hnd hex hdisj hinj
  refine ⟨fs', ?_, h1, h2, h3⟩
  simp only [archive_files]
  rw [hrun]
  rfl

/-- Witness for C6 at a concrete two-file archive. -/
theorem c6_archive_moves_files_witness :
    ∃ fs',
      archive_files ["/cap/a.jpg", "/cap/b.jpg"] "/out" 7 fsTwoFiles =
        .ok ("/out" ++ "/" ++ timestamp_str 7, fs') ∧
      (∀ f ∈ ["/cap/a.jpg", "/cap/b.jpg"],
        fsLookup fs' (tgt ("/out" ++ "/" ++ timestamp_str 7) f) =
          fsLookup fsTwoFiles f) ∧
      (∀ f ∈ ["/cap/a.jpg", "/cap/b.jpg"], fsLookup fs' f = none) ∧
      (∀ p, p ∉ ["/cap/a.jpg", "/cap/b.jpg"] →
        (∀ f ∈ ["/cap/a.jpg", "/cap/b.jpg"],
          p ≠ tgt ("/out" ++ "/" ++ timestamp_str 7) f) →
        fsLookup fs' p = fsLookup fsTwoFiles p) :=
  c6_archive_moves_files ["/cap/a.jpg", "/cap/b.jpg"] "/out" 7 fsTwoFiles
    (by decide) (by decide) (by decide) (by decide) (by decide)

/-- C10: every successful `run_cycle` returns at most 9 image paths, and when
detection is enabled the batch handed to `run_obj_dets` is exactly the first
9 acquired paths, in acquisition order. -/
theorem c10_at_most_nine_images (env : CycleEnv) (fs : FS) (cwd cwd' : String)
    (r : CycleResult) (h : run_cycle env fs cwd = (.ok r, cwd')) :
    r.shown.length ≤ 9 ∧
    (env.darknetEnabled = true →
      r.detBatch = some ((acquire env fs).1.take 9)) := by
  rcases hacq : acquire env fs with ⟨imgs, fs0⟩
  by_cases hd : env.darknetEnabled = true
  · simp only [run_cycle, hacq, hd, if_true] at h
    split at h
    · simp at h
    · split at h
      · simp at h
      · split at h
        · simp at h
        · simp only [Prod.mk.injEq, Except.ok.injEq] at h
          obtain ⟨hr, _⟩ := h
          subst hr
          refine ⟨?_, fun _ => ?_⟩
          · rw [List.length_take]
            exact Nat.min_le_left _ _
          · simp [hacq]
  · simp only [run_cycle, hacq, if_neg hd] at h
    simp only [Prod.mk.injEq, Except.ok.injEq] at h
    obtain ⟨hr, _⟩ := h
    subst hr
    refine ⟨?_, fun hdd => absurd hdd hd⟩
    rw [List.length_take]
    exact Nat.min_le_left _ _

/-- Witness for C10: a concrete successful cycle with detection enabled. -/
theorem c10_at_most_nine_images_witness :
    (⟨[], [], some [], [cmdDetOnly, cmdDetOnly]⟩ : CycleResult).shown.length
      ≤ 9 ∧
    (envDetOnly.darknetEnabled = true →
      (⟨[], [], some [], [cmdDetOnly, cmdDetOnly]⟩ : CycleResult).detBatch =
        some ((acquire envDetOnly []).1.take 9)) :=
  c10_at_most_nine_images envDetOnly [] "/wd" "/wd"
    ⟨[], [], some [], [cmdDetOnly, cmdDetOnly]⟩ (by decide)

end Cambanzo
